import Mathlib

/-!
Verification development for a distributed object-store codebase.

Part 1 embeds the concrete Python modules that are present in the
repository: the CLI logger (`cli_logger.py`) and the ML framework
auto-detection shim (`rllib/utils/framework.py`).

Part 2 models the distributed reference-counting core from its
specification (the core implementation itself is exercised only through
black-box tests in the repository).
-/

/-- Python exception values raised by the embedded functions.
Only `ValueError` is relevant to the embedded code paths. -/
inductive PyError where
  | valueError (msg : String)
deriving DecidableEq

/-- Python values that can be returned by the embedded logger methods:
either `None` (represented as `Option.none` at use sites), a boolean, or
a string. -/
inductive PyVal where
  | pybool (b : Bool)
  | pystr (s : String)
deriving DecidableEq

namespace CL

/-- State of the `_CliLogger` singleton that is relevant to the embedded
methods: the `non_interactive` flag, the indentation level, the verbosity,
the wall-clock string used by the log `formatter` for `asctime`, and the
text emitted to stdout so far. `indent_level` is a Python `int`, hence
`Int`. -/
structure LoggerState where
  non_interactive : Bool
  indent_level : Int
  verbosity : Int
  now : String
  output : String
deriving DecidableEq

/-- The `_CliLogger.__init__` state: interactive, indent level 0,
verbosity 0. -/
def initLogger : LoggerState :=
  { non_interactive := false, indent_level := 0, verbosity := 0,
    now := "01/01/20 00:00:00", output := "" }

/-- Python `"  " * indent_level`: the empty string when the level is not
positive. -/
def indentStr (n : Int) : String :=
  String.join (List.replicate n.toNat "  ")

/-- Left-justified padding to width `w`, as in the `{levelname:6}` field
of the `logging.Formatter` format string. -/
def padRight (s : String) (w : Nat) : String :=
  s ++ String.join (List.replicate (w - s.length) " ")

/-- The module-level `formatter` with format `[asctime] levelname:6 message`
(date first, then the level name padded to width 6, then the message). -/
def formatterFormat (asctime levelname message : String) : String :=
  "[" ++ asctime ++ "] " ++ padRight levelname 6 ++ " " ++ message

/-- Python `msg.strip() == ""`: the message is all whitespace. -/
def stripIsEmpty (msg : String) : Bool :=
  msg.trim == ""

/-- Message of the `ValueError` raised by `_print` on embedded newlines. -/
def noMsg : String := "NO"

/-- Message of the `ValueError` raised by `_error` and `_warning` when no
level string is supplied. -/
def logLevelNotSetMsg : String := "Log level not set."

/-- The `colorful` styling wrappers (`cf.red`, `cf.orange`, `cf.limeGreen`,
`cf.skyBlue`, `cf.bold`, `cf.dodgerBlue`). With color output disabled they
render to the argument text unchanged; the embedded claims are insensitive
to styling, so they are modelled as the identity on the text. -/
def cfRed (s : String) : String := s

/-- See `cfRed`. -/
def cfOrange (s : String) : String := s

/-- See `cfRed`. -/
def cfLimeGreen (s : String) : String := s

/-- See `cfRed`. -/
def cfSkyBlue (s : String) : String := s

/-- See `cfRed`. -/
def cfBold (s : String) : String := s

/-- See `cfRed`. -/
def cfDodgerBlue (s : String) : String := s

/-- Function `_format_msg` applied to a plain string message with no `*args`, no
`_tags`, no `_numbered` and no `_no_format`: the tag string and numbering
string are empty and `str.format` with no arguments returns the message
unchanged. -/
def _format_msg (msg : String) : String := msg

/-- Python `"\n" in msg`: some character of the message is a newline. -/
def containsNewline (msg : String) : Bool :=
  msg.data.any (fun c => c == '\n')

/-- Method `_CliLogger._print(msg, _level_str, _linefeed)`. Raises `ValueError`
when the message embeds a newline; in non-interactive mode drops
whitespace-only messages and otherwise renders through the module
`formatter`; in interactive mode prepends the indentation; finally writes
with or without a trailing linefeed. -/
def _print (s : LoggerState) (msg levelStr : String) (linefeed : Bool) :
    Except PyError LoggerState :=
  if containsNewline msg then
    Except.error (PyError.valueError noMsg)
  else if s.non_interactive && stripIsEmpty msg then
    Except.ok s
  else
    let rendered :=
      if s.non_interactive then formatterFormat s.now levelStr msg
      else indentStr s.indent_level ++ msg
    if linefeed then Except.ok { s with output := s.output ++ rendered ++ "\n" }
    else Except.ok { s with output := s.output ++ rendered }

/-- Method `_CliLogger.print(msg, _level_str)`: formats the message, proxies to
`_print`, and falls off the end of the body (returns `None`). -/
def print (s : LoggerState) (msg levelStr : String) :
    Except PyError (LoggerState × Option PyVal) :=
  match _print s (_format_msg msg) levelStr true with
  | Except.ok s2 => Except.ok (s2, none)
  | Except.error e => Except.error e

/-- Method `_CliLogger._error(msg, _level_str)`: raises `ValueError` when the
level string was left unset, otherwise prints the message in red at that
level. -/
def _error (s : LoggerState) (msg : String) (levelStr : Option String) :
    Except PyError (LoggerState × Option PyVal) :=
  match levelStr with
  | none => Except.error (PyError.valueError logLevelNotSetMsg)
  | some l => print s (cfRed msg) l

/-- Method `_CliLogger.error`: `_error` at level `ERR`. -/
def error (s : LoggerState) (msg : String) :
    Except PyError (LoggerState × Option PyVal) :=
  _error s msg (some "ERR")

/-- Method `_CliLogger.panic`: `_error` at level `PANIC`. -/
def panic (s : LoggerState) (msg : String) :
    Except PyError (LoggerState × Option PyVal) :=
  _error s msg (some "PANIC")

/-- Method `_CliLogger._warning(msg, _level_str)`: raises `ValueError` when the
level string was left unset, otherwise prints the message in orange at
that level. -/
def _warning (s : LoggerState) (msg : String) (levelStr : Option String) :
    Except PyError (LoggerState × Option PyVal) :=
  match levelStr with
  | none => Except.error (PyError.valueError logLevelNotSetMsg)
  | some l => print s (cfOrange msg) l

/-- Method `_CliLogger.warning`: `_warning` at level `WARN`. -/
def warning (s : LoggerState) (msg : String) :
    Except PyError (LoggerState × Option PyVal) :=
  _warning s msg (some "WARN")

/-- Method `_CliLogger.success`: prints the message in lime green at level
`SUCC`. -/
def success (s : LoggerState) (msg : String) :
    Except PyError (LoggerState × Option PyVal) :=
  print s (cfLimeGreen msg) "SUCC"

/-- Method `_CliLogger.labeled_value(key, msg)`: prints `key: msg` with the key
in sky blue and the message bold, at the default `INFO` level, via
`_print`. -/
def labeled_value (s : LoggerState) (key msg : String) :
    Except PyError (LoggerState × Option PyVal) :=
  match _print s (cfSkyBlue key ++ ": " ++ _format_msg (cfBold msg)) "INFO" true with
  | Except.ok s2 => Except.ok (s2, none)
  | Except.error e => Except.error e

/-- Method `_CliLogger.old_debug`: compatibility entry point whose body is a bare
`return` (returns `None`, touches nothing). -/
def old_debug (s : LoggerState) (msg : String) :
    Except PyError (LoggerState × Option PyVal) :=
  Except.ok (s, none)

/-- Method `_CliLogger.old_info`: bare `return`. -/
def old_info (s : LoggerState) (msg : String) :
    Except PyError (LoggerState × Option PyVal) :=
  Except.ok (s, none)

/-- Method `_CliLogger.old_warning`: bare `return`. -/
def old_warning (s : LoggerState) (msg : String) :
    Except PyError (LoggerState × Option PyVal) :=
  Except.ok (s, none)

/-- Method `_CliLogger.old_error`: bare `return`. -/
def old_error (s : LoggerState) (msg : String) :
    Except PyError (LoggerState × Option PyVal) :=
  Except.ok (s, none)

/-- Method `_CliLogger.old_exception`: bare `return`. -/
def old_exception (s : LoggerState) (msg : String) :
    Except PyError (LoggerState × Option PyVal) :=
  Except.ok (s, none)

/-- Holds exactly when a method call either raised or completed returning
Python `None`. -/
def returnsNone (r : Except PyError (LoggerState × Option PyVal)) : Bool :=
  match r with
  | Except.ok (_, v) => v.isNone
  | Except.error _ => true

/-- Method `__enter__` of the context manager returned by
`_CliLogger.indented()`: increments `indent_level`. -/
def indentedEnter (s : LoggerState) : LoggerState :=
  { s with indent_level := s.indent_level + 1 }

/-- Method `__exit__` of the context manager returned by `_CliLogger.indented()`:
decrements `indent_level` (run on both normal and exceptional exit of the
`with` block). -/
def indentedExit (s : LoggerState) : LoggerState :=
  { s with indent_level := s.indent_level - 1 }

/-- A `with cli_logger.indented(): body` block: enter, run the body (which
may raise, carrying the mutated logger state either way), then exit
unconditionally — Python invokes `__exit__` also when the body raised, and
this `__exit__` returns `None`, so the exception propagates. -/
def withIndented (s : LoggerState)
    (body : LoggerState → LoggerState × Option PyError) :
    LoggerState × Option PyError :=
  let r := body (indentedEnter s)
  (indentedExit r.1, r.2)

end CL

namespace FW

/-- Message of the `ValueError` raised by `get_auto_framework` when both
backends are installed. -/
def bothInstalledMsg : String :=
  "framework='auto' (default value) is not allowed if both TensorFlow AND PyTorch are installed! Instead, use framework='tf|tfe|torch' explicitly."

/-- Message of the `ValueError` raised by `get_auto_framework` when
neither backend is installed. -/
def neitherInstalledMsg : String :=
  "Neither TensorFlow nor PyTorch are installed! You must install one of them by running either `pip install tensorflow` OR `pip install torch torchvision`"

/-- Function `rllib.utils.framework.get_auto_framework`. The module-level `torch`
and `tf` bindings are the imported modules or `None`; they are represented
by the two installation flags (`torchInstalled` is `torch is not None`,
`tfInstalled` makes `tf` truthy, as every module object is). Returns the
detected framework string or raises `ValueError`. -/
def get_auto_framework (torchInstalled tfInstalled : Bool) :
    Except PyError String :=
  if torchInstalled then
    if !tfInstalled then Except.ok "torch"
    else Except.error (PyError.valueError bothInstalledMsg)
  else if !tfInstalled then Except.error (PyError.valueError neitherInstalledMsg)
  else Except.ok "tf"

end FW

namespace Core

/-- Association-list lookup by identifier (first match wins). -/
def alookup {α : Type} (l : List (Nat × α)) (i : Nat) : Option α :=
  match l with
  | [] => none
  | (j, a) :: t => if j = i then some a else alookup t i

/-- Association-list pointwise update of every entry with the given
identifier. -/
def aupdate {α : Type} (l : List (Nat × α)) (i : Nat) (f : α → α) :
    List (Nat × α) :=
  l.map (fun p => if p.1 = i then (p.1, f p.2) else p)

/-- Modelled from the spec: the typed error kinds of the core engine
(`StoreFullError`, `TimeoutError`, `LostError`, `WorkerError`); the core
implementation is absent from the repository sources. -/
inductive CoreError where
  | storeFullError
  | timeoutError
  | lostError
  | workerError
deriving DecidableEq

/-- Modelled from the spec: the outcome of awaiting data (`get`): the data
is returned, a typed error is raised, or the call would block with no
bound. -/
inductive GetResult where
  | got
  | err (e : CoreError)
  | blocks
deriving DecidableEq

/-- Modelled from the spec: a `StoreEntry` of the node-local object store
(payload size, owner-side reference count, presence flag, and whether the
data was confirmed permanently absent). Sizes are in MiB. -/
structure StoreEntry where
  size : Nat
  refcount : Nat
  present : Bool
  lost : Bool
deriving DecidableEq

/-- Modelled from the spec: a node-local bounded-capacity object store
with its `object_store_full_max_retries` configuration and a fresh-id
counter. -/
structure Store where
  entries : List (Nat × StoreEntry)
  capacity : Nat
  fullMaxRetries : Nat
  nextId : Nat
deriving DecidableEq

/-- Modelled from the spec: `used_bytes` capacity accounting — bytes of
all present entries. -/
def usedBytes (s : Store) : Nat :=
  (s.entries.map (fun p => if p.2.present then p.2.size else 0)).sum

/-- Modelled from the spec: one eviction attempt, evicting all currently
zero-refcount entries on the node. -/
def evictZeroRefcount (s : Store) : Store :=
  { s with entries := s.entries.map (fun p =>
      if p.2.refcount = 0 then (p.1, { p.2 with present := false }) else p) }

/-- Modelled from the spec: make room for `needed` bytes, performing up to
`retries` eviction attempts; `none` when capacity cannot be freed. -/
def freeLoop (needed : Nat) (retries : Nat) (s : Store) : Option Store :=
  if usedBytes s + needed ≤ s.capacity then some s
  else
    match retries with
    | 0 => none
    | r + 1 => freeLoop needed r (evictZeroRefcount s)

/-- Modelled from the spec: `put(payload) -> id`, failing with
`StoreFullError` if capacity cannot be freed after
`object_store_full_max_retries` eviction attempts. `hold` records whether
the caller keeps a local reference to the new object (refcount 1) or
immediately drops it (refcount 0), as with an unbound `ray.put`. -/
def put (s : Store) (size : Nat) (hold : Bool) :
    Except CoreError (Nat × Store) :=
  match freeLoop size s.fullMaxRetries s with
  | none => Except.error CoreError.storeFullError
  | some s2 =>
    let e : StoreEntry :=
      { size := size, refcount := if hold then 1 else 0,
        present := true, lost := false }
    Except.ok (s2.nextId,
      { s2 with entries := (s2.nextId, e) :: s2.entries,
                nextId := s2.nextId + 1 })

/-- Modelled from the spec: `get(id, timeout?)`. Present data is returned;
data confirmed permanently absent raises `LostError`; otherwise a finite
timeout elapses with the data still absent and raises `TimeoutError`,
while without a timeout the call keeps blocking. The store (in particular
the caller's separately tracked local handle) is returned unchanged in
every case. -/
def get (s : Store) (i : Nat) (timeout : Option Nat) : GetResult × Store :=
  match alookup s.entries i with
  | none => (GetResult.blocks, s)
  | some e =>
    if e.present then (GetResult.got, s)
    else if e.lost then (GetResult.err CoreError.lostError, s)
    else
      match timeout with
      | some _ => (GetResult.err CoreError.timeoutError, s)
      | none => (GetResult.blocks, s)

/-- Modelled from the spec: releasing a local reference; the transition of
the refcount to 0 immediately and unconditionally evicts the payload. -/
def removeLocalRef (s : Store) (i : Nat) : Store :=
  { s with entries := aupdate s.entries i (fun e =>
      let e2 := { e with refcount := e.refcount - 1 }
      if e2.refcount = 0 then { e2 with present := false } else e2) }

/-- Modelled from the spec: data becoming present again for a ref (e.g.
lineage reconstruction repopulating the same ref), used to show a timed
out `get` may be retried successfully. -/
def markPresent (s : Store) (i : Nat) : Store :=
  { s with entries := aupdate s.entries i (fun e => { e with present := true }) }

/-- Modelled from the spec: `n` consecutive unrelated puts of `size` whose
results are not bound to any local reference; fails as soon as one put
fails. -/
def putN (s : Store) (n : Nat) (size : Nat) : Except CoreError Store :=
  match n with
  | 0 => Except.ok s
  | m + 1 =>
    match put s size false with
    | Except.error e => Except.error e
    | Except.ok (_, s2) => putN s2 m size

/-- A 100 MiB-capacity store with `object_store_full_max_retries` 2, as in
the `one_worker_100MiB` test fixture. -/
def initialStore : Store :=
  { entries := [], capacity := 100, fullMaxRetries := 2, nextId := 0 }

/-- Scenario A: put a 40 MiB object with one held reference into the
100 MiB store, perform five more unrelated 40 MiB puts, `get` the held
object, then drop the reference and `get` it again with a finite timeout.
Returns the two get outcomes (or the error of the first failing put). -/
def scenarioA : Except CoreError (GetResult × GetResult) :=
  match put initialStore 40 true with
  | Except.error e => Except.error e
  | Except.ok (i, s1) =>
    match putN s1 5 40 with
    | Except.error e => Except.error e
    | Except.ok s2 =>
      let r1 := (get s2 i (some 1)).1
      let s3 := removeLocalRef s2 i
      let r2 := (get s3 i (some 1)).1
      Except.ok (r1, r2)

/-- Modelled from the spec: the per-object reference data relevant to the
recursive-pin invariant — local-handle count, task-argument-pin count, and
the set of nested `ObjectRef`s discovered in the payload. -/
structure RefObj where
  localRefs : Nat
  taskPins : Nat
  nested : List Nat
deriving DecidableEq

/-- A heap of reference-counted objects, keyed by object identifier. -/
abbrev RefHeap := List (Nat × RefObj)

/-- Modelled from the spec: an object is directly pinned when its
local-handle count plus its task-argument-pin count is positive. -/
def directPinned (h : RefHeap) (i : Nat) : Bool :=
  match alookup h i with
  | some o => decide (0 < o.localRefs + o.taskPins)
  | none => false

/-- Modelled from the spec: reachability of an object — it is directly
pinned, or some reachable object's payload embeds a ref to it (the
recursive pin). A reachable object is retrievable; refcount reaching 0 is
the only trigger for eviction. -/
inductive Reach (h : RefHeap) : Nat → Prop where
  | direct (i : Nat) : directPinned h i = true → Reach h i
  | viaNested (a b : Nat) (o : RefObj) :
      Reach h a → alookup h a = some o → b ∈ o.nested → Reach h b

/-- Modelled from the spec: an object is evictable exactly when it is
unreachable. -/
def evictable (h : RefHeap) (i : Nat) : Prop := ¬ Reach h i

/-- Scenario B heap while the task is pending: object 0 is the innermost
40 MiB array, object `k+1`'s payload embeds a ref to object `k` (5 levels
of nested puts), the driver has dropped all of its local references, and
only the outermost object 5 is pinned — by a pending task argument. -/
def nestChainPending : RefHeap :=
  [(0, { localRefs := 0, taskPins := 0, nested := [] }),
   (1, { localRefs := 0, taskPins := 0, nested := [0] }),
   (2, { localRefs := 0, taskPins := 0, nested := [1] }),
   (3, { localRefs := 0, taskPins := 0, nested := [2] }),
   (4, { localRefs := 0, taskPins := 0, nested := [3] }),
   (5, { localRefs := 0, taskPins := 1, nested := [4] })]

/-- Scenario B heap after the task terminated: all pins have been
released. -/
def nestChainDone : RefHeap :=
  [(0, { localRefs := 0, taskPins := 0, nested := [] }),
   (1, { localRefs := 0, taskPins := 0, nested := [0] }),
   (2, { localRefs := 0, taskPins := 0, nested := [1] }),
   (3, { localRefs := 0, taskPins := 0, nested := [2] }),
   (4, { localRefs := 0, taskPins := 0, nested := [3] }),
   (5, { localRefs := 0, taskPins := 0, nested := [4] })]

/-- Modelled from the spec: the terminal outcome of a task, as observed
through its result ref. -/
inductive TaskOutcome where
  | running
  | succeeded
  | failed (e : CoreError)
deriving DecidableEq

/-- Modelled from the spec: a `PendingTask` of the Task Lifecycle Manager:
remaining retry budget, attempt count, whether its argument pins are still
held, how many times the pins have been released, and the task outcome. -/
structure TaskState where
  retriesLeft : Nat
  attempts : Nat
  pinsHeld : Bool
  pinReleaseCount : Nat
  outcome : TaskOutcome
deriving DecidableEq

/-- Modelled from the spec: `submit` — pins every argument, starts the
first attempt with the full retry budget. -/
def submitTask (maxRetries : Nat) : TaskState :=
  { retriesLeft := maxRetries, attempts := 1, pinsHeld := true,
    pinReleaseCount := 0, outcome := TaskOutcome.running }

/-- Modelled from the spec: an executor crash mid-execution. With retry
budget remaining the task is retried with its argument pins held
unchanged; once retries are exhausted the pins are released (only if still
held) and a terminal `WorkerError` is recorded. -/
def onCrash (t : TaskState) : TaskState :=
  match t.retriesLeft with
  | r + 1 => { t with retriesLeft := r, attempts := t.attempts + 1 }
  | 0 =>
    { t with outcome := TaskOutcome.failed CoreError.workerError,
             pinReleaseCount :=
               t.pinReleaseCount + (if t.pinsHeld then 1 else 0),
             pinsHeld := false }

/-- Applies `n` consecutive executor crashes. -/
def crashAll (n : Nat) (t : TaskState) : TaskState :=
  match n with
  | 0 => t
  | m + 1 => crashAll m (onCrash t)

/-- Modelled from the spec: what a caller awaiting the task's result ref
observes — blocks while running, data on success, the typed error on
terminal failure. -/
def awaitTask (t : TaskState) : GetResult :=
  match t.outcome with
  | TaskOutcome.running => GetResult.blocks
  | TaskOutcome.succeeded => GetResult.got
  | TaskOutcome.failed e => GetResult.err e

/-- A task submitted with the given `max_retries` whose executor crashes
mid-execution on every attempt: the initial attempt and every retry crash,
`maxRetries + 1` crashes in total. -/
def runCrashingTask (maxRetries : Nat) : TaskState :=
  crashAll (maxRetries + 1) (submitTask maxRetries)

/-- Modelled from the spec: the owner-side view of one owned object — the
liveness of its owner process, the number of references still held by
other processes, and whether the payload is still stored. -/
structure OwnedObj where
  ownerAlive : Bool
  otherRefs : Nat
  present : Bool
deriving DecidableEq

/-- Modelled from the spec: eviction on the refcount-zero transition. -/
def maybeEvict (o : OwnedObj) : OwnedObj :=
  if o.otherRefs = 0 then { o with present := false } else o

/-- Modelled from the spec: all other processes drop their references;
the count reaches 0, which evicts the payload. -/
def dropAllRefs (o : OwnedObj) : OwnedObj :=
  maybeEvict { o with otherRefs := 0 }

/-- Modelled from the spec: the owner process dies. -/
def killOwner (o : OwnedObj) : OwnedObj :=
  { o with ownerAlive := false }

/-- Modelled from the spec: a dependent awaiting the object — present data
is returned; absent data blocks while the owner is alive (reconstruction
or arrival may still occur), and owner death makes reachability
permanently unverifiable, so the wait resolves to a terminal
`WorkerError`, never an indefinite hang. -/
def awaitOwned (o : OwnedObj) : GetResult :=
  if o.present then GetResult.got
  else if o.ownerAlive then GetResult.blocks
  else GetResult.err CoreError.workerError

/-- Modelled from the spec: an `OwnershipRecord` entry — the immutable
owner identity fixed at creation, plus the mutable reference count. -/
structure OwnEntry where
  owner : Nat
  refcount : Nat
deriving DecidableEq

/-- Modelled from the spec: the reference-count protocol operations that
touch an ownership table. `createObj i p` registers object `i` as newly
owned by executing process `p` at the moment of successful task return (or
`put`); ids are cluster-unique, so creation of an already-registered id is
impossible and leaves the table unchanged. `addRef`/`dropRef` are the
count deltas driven by passing a ref into a task, returning it from a
task, borrowing it, and releasing local handles. -/
inductive OwnOp where
  | createObj (i p : Nat)
  | addRef (i : Nat)
  | dropRef (i : Nat)
deriving DecidableEq

/-- An ownership table, keyed by object identifier. -/
abbrev OwnTable := List (Nat × OwnEntry)

/-- Modelled from the spec: owner-side application of one protocol
operation. -/
def applyOp (m : OwnTable) : OwnOp → OwnTable
  | OwnOp.createObj i p =>
    match alookup m i with
    | some _ => m
    | none => (i, { owner := p, refcount := 1 }) :: m
  | OwnOp.addRef i => aupdate m i (fun e => { e with refcount := e.refcount + 1 })
  | OwnOp.dropRef i => aupdate m i (fun e => { e with refcount := e.refcount - 1 })

/-- Sequential application of protocol operations. -/
def applyOps (m : OwnTable) (ops : List OwnOp) : OwnTable :=
  ops.foldl applyOp m

/-- The owner identity recorded for an object. -/
def ownerOf (m : OwnTable) (i : Nat) : Option Nat :=
  (alookup m i).map (fun e => e.owner)

/-- The borrowed-return chain scenario: the task at the bottom of a
5-deep recursive chain (executing in process 100) creates object 7; each
enclosing task in the chain gets the ref, returns it to its caller, and
releases its own handle; finally the driver holds it. -/
def chainScenario : OwnTable :=
  applyOps []
    [OwnOp.createObj 7 100,
     OwnOp.addRef 7, OwnOp.dropRef 7,
     OwnOp.addRef 7, OwnOp.dropRef 7,
     OwnOp.addRef 7, OwnOp.dropRef 7,
     OwnOp.addRef 7, OwnOp.dropRef 7,
     OwnOp.addRef 7, OwnOp.dropRef 7]

end Core

namespace Core

/-- A successful association-list lookup returns a member of the list. -/
theorem alookup_mem {α : Type} (l : List (Nat × α)) (i : Nat) (a : α)
    (h : alookup l i = some a) : (i, a) ∈ l := by
  induction l with
  | nil => simp [alookup] at h
  | cons p t ih =>
    obtain ⟨j, b⟩ := p
    by_cases hj : j = i
    · subst hj
      simp [alookup] at h
      subst h
      exact List.mem_cons_self _ _
    · simp [alookup, hj] at h
      exact List.mem_cons_of_mem _ (ih h)

/-- Lookup after a pointwise update: the updated id's entry is mapped,
every other id is untouched. -/
theorem alookup_aupdate {α : Type} (l : List (Nat × α)) (j : Nat)
    (f : α → α) (i : Nat) :
    alookup (aupdate l j f) i =
      if j = i then (alookup l i).map f else alookup l i := by
  induction l with
  | nil => simp [alookup, aupdate]
  | cons p t ih =>
    obtain ⟨k, b⟩ := p
    have hcons : aupdate ((k, b) :: t) j f
        = (if k = j then (k, f b) else (k, b)) :: aupdate t j f := by
      simp [aupdate]
    rw [hcons]
    by_cases hk : k = j
    · subst hk
      rw [if_pos rfl]
      by_cases hi : k = i
      · subst hi
        simp [alookup]
      · simp [alookup, hi, ih]
    · rw [if_neg hk]
      by_cases hi : k = i
      · subst hi
        simp [alookup, Ne.symm hk]
      · simp [alookup, hk, hi, ih]

/-- In a heap where every entry has zero local refs and zero task pins,
nothing is reachable. -/
theorem no_reach_of_zero_pins (h : RefHeap)
    (hz : ∀ p ∈ h, (Prod.snd p).localRefs = 0 ∧ (Prod.snd p).taskPins = 0) :
    ∀ i, ¬ Reach h i := by
  intro i r
  induction r with
  | direct j hd =>
    unfold directPinned at hd
    cases hl : alookup h j with
    | none => rw [hl] at hd; cases hd
    | some o =>
      rw [hl] at hd
      simp at hd
      obtain ⟨h1, h2⟩ := hz (j, o) (alookup_mem h j o hl)
      simp only at h1 h2
      omega
  | viaNested a b o hr hl hm ih => exact ih

/-- Running a task whose current retry budget is `r` through `r + 1`
consecutive executor crashes reaches the terminal `WorkerError` state,
releasing the argument pins exactly once (when they were held). -/
theorem crashAll_terminal (r : Nat) :
    ∀ t : TaskState, t.retriesLeft = r →
      crashAll (r + 1) t =
        { retriesLeft := 0, attempts := t.attempts + r, pinsHeld := false,
          pinReleaseCount :=
            t.pinReleaseCount + (if t.pinsHeld then 1 else 0),
          outcome := TaskOutcome.failed CoreError.workerError } := by
  induction r with
  | zero =>
    intro t ht
    obtain ⟨rl, a, ph, prc, oc⟩ := t
    simp only at ht
    subst ht
    simp [crashAll, onCrash]
  | succ r ih =>
    intro t ht
    obtain ⟨rl, a, ph, prc, oc⟩ := t
    simp only at ht
    subst ht
    have h2 := ih { retriesLeft := r, attempts := a + 1, pinsHeld := ph,
                    pinReleaseCount := prc, outcome := oc } rfl
    calc crashAll (r + 1 + 1) ⟨r + 1, a, ph, prc, oc⟩
        = crashAll (r + 1) ⟨r, a + 1, ph, prc, oc⟩ := rfl
      _ = _ := by rw [h2]; simp [TaskState.mk.injEq]; omega

/-- One reference-count protocol operation never changes the recorded
owner of an already-registered object. -/
theorem ownerOf_applyOp (m : OwnTable) (op : OwnOp) (i p : Nat)
    (h : ownerOf m i = some p) : ownerOf (applyOp m op) i = some p := by
  cases op with
  | createObj j q =>
    unfold ownerOf at h ⊢
    simp only [applyOp]
    cases hl : alookup m j with
    | some e => exact h
    | none =>
      by_cases hj : j = i
      · subst hj
        rw [hl] at h
        simp at h
      · have hskip :
            alookup ((j, ({ owner := q, refcount := 1 } : OwnEntry)) :: m) i
              = alookup m i := by
          simp [alookup, hj]
        rw [hskip]
        exact h
  | addRef j =>
    unfold ownerOf at h ⊢
    simp only [applyOp]
    rw [alookup_aupdate]
    by_cases hj : j = i
    · rw [if_pos hj]
      cases hl : alookup m i with
      | none => rw [hl] at h; simp at h
      | some e =>
        rw [hl] at h
        simp at h
        simp [h]
    · rw [if_neg hj]
      exact h
  | dropRef j =>
    unfold ownerOf at h ⊢
    simp only [applyOp]
    rw [alookup_aupdate]
    by_cases hj : j = i
    · rw [if_pos hj]
      cases hl : alookup m i with
      | none => rw [hl] at h; simp at h
      | some e =>
        rw [hl] at h
        simp at h
        simp [h]
    · rw [if_neg hj]
      exact h

/-- A sequence of reference-count protocol operations never changes the
recorded owner of an already-registered object. -/
theorem ownerOf_applyOps (ops : List OwnOp) (m : OwnTable) (i p : Nat)
    (h : ownerOf m i = some p) : ownerOf (applyOps m ops) i = some p := by
  induction ops generalizing m with
  | nil => exact h
  | cons op rest ih =>
    show ownerOf (applyOps (applyOp m op) rest) i = some p
    exact ih (applyOp m op) (ownerOf_applyOp m op i p h)

end Core

namespace Core

/-- Claim C1: for an object put into a 100 MiB-capacity store while one
reference to it is held, five subsequent unrelated 40 MiB puts all succeed
(each put may evict all currently zero-refcount entries), the held object
stays retrievable, and after the last reference is dropped a subsequent
get on it fails. -/
theorem scenarioA_pinned_survival :
    scenarioA = Except.ok (GetResult.got, GetResult.err CoreError.timeoutError) :=
  rfl

/-- Claim C2: the recursive-pin invariant — whenever a reachable object's
payload embeds a ref to another object, that object is reachable too; in
the 5-level nesting scenario with only the outermost object pinned by a
pending task argument and all driver references dropped, the innermost
object is still reachable, and it becomes evictable once the task has
terminated and all pins are released. -/
theorem recursive_pin_scenarioB :
    (∀ (h : RefHeap) (a b : Nat) (o : RefObj),
        Reach h a → alookup h a = some o → b ∈ o.nested → Reach h b)
    ∧ Reach nestChainPending 0
    ∧ evictable nestChainDone 0 := by
  refine ⟨fun h a b o hr hl hm => Reach.viaNested a b o hr hl hm, ?_, ?_⟩
  · have h5 : Reach nestChainPending 5 := Reach.direct 5 (by decide)
    have h4 : Reach nestChainPending 4 :=
      Reach.viaNested 5 4 { localRefs := 0, taskPins := 1, nested := [4] }
        h5 (by decide) (by decide)
    have h3 : Reach nestChainPending 3 :=
      Reach.viaNested 4 3 { localRefs := 0, taskPins := 0, nested := [3] }
        h4 (by decide) (by decide)
    have h2 : Reach nestChainPending 2 :=
      Reach.viaNested 3 2 { localRefs := 0, taskPins := 0, nested := [2] }
        h3 (by decide) (by decide)
    have h1 : Reach nestChainPending 1 :=
      Reach.viaNested 2 1 { localRefs := 0, taskPins := 0, nested := [1] }
        h2 (by decide) (by decide)
    exact Reach.viaNested 1 0 { localRefs := 0, taskPins := 0, nested := [0] }
      h1 (by decide) (by decide)
  · exact no_reach_of_zero_pins nestChainDone (by decide) 0

/-- Witness for C2: the recursive-pin conjunct applied at a concrete heap
and edge. -/
theorem recursive_pin_scenarioB_witness : Reach nestChainPending 4 :=
  recursive_pin_scenarioB.1 nestChainPending 5 4
    { localRefs := 0, taskPins := 1, nested := [4] }
    (Reach.direct 5 (by decide)) (by decide) (by decide)

/-- Claim C3: a task whose executor crashes mid-execution on every attempt
reaches, once its configured retries are exhausted, a state in which
anyone awaiting the result ref observes a terminal `WorkerError`, the
argument pins have been released exactly once, and `maxRetries + 1`
attempts were made in total. -/
theorem crashing_task_worker_error (m : Nat) :
    awaitTask (runCrashingTask m) = GetResult.err CoreError.workerError
    ∧ (runCrashingTask m).pinReleaseCount = 1
    ∧ (runCrashingTask m).pinsHeld = false
    ∧ (runCrashingTask m).attempts = m + 1 := by
  have h := crashAll_terminal m (submitTask m) rfl
  unfold runCrashingTask
  rw [h]
  refine ⟨rfl, by simp [submitTask], rfl, by simp [submitTask]; omega⟩

/-- Witness for C3: Scenario C, `max_retries = 1` — exactly one retry (two
attempts), then a terminal `WorkerError` with the pins released exactly
once. -/
theorem crashing_task_worker_error_witness :
    awaitTask (runCrashingTask 1) = GetResult.err CoreError.workerError
    ∧ (runCrashingTask 1).pinReleaseCount = 1
    ∧ (runCrashingTask 1).attempts = 2 :=
  ⟨(crashing_task_worker_error 1).1, (crashing_task_worker_error 1).2.1,
   (crashing_task_worker_error 1).2.2.2⟩

/-- Claim C4: the owner-death law — if the owner dies while other
processes still hold references and the data is not present, a dependent
awaiting the object observes the terminal typed `WorkerError` rather than
blocking; and if the owner dies after all other references were already
dropped, the storage is reclaimed all the same. -/
theorem owner_death_law :
    (∀ o : OwnedObj, 0 < o.otherRefs → o.ownerAlive = false →
        o.present = false → awaitOwned o = GetResult.err CoreError.workerError)
    ∧ (∀ o : OwnedObj, (killOwner (dropAllRefs o)).present = false) := by
  constructor
  · intro o _ ha hp
    simp [awaitOwned, ha, hp]
  · intro o
    simp [killOwner, dropAllRefs, maybeEvict]

/-- Witness for C4: both conjuncts applied at concrete objects. -/
theorem owner_death_law_witness :
    awaitOwned { ownerAlive := false, otherRefs := 1, present := false }
      = GetResult.err CoreError.workerError
    ∧ (killOwner (dropAllRefs
        { ownerAlive := true, otherRefs := 3, present := true })).present = false :=
  ⟨owner_death_law.1 { ownerAlive := false, otherRefs := 1, present := false }
      (by decide) rfl rfl,
   owner_death_law.2 { ownerAlive := true, otherRefs := 3, present := true }⟩

/-- Claim C5: once an object is registered as owned by the process that
executed the creating task, no sequence of reference-count protocol
operations ever changes the recorded owner; in particular after the
5-deep borrowed-return chain the object created by the bottom task is
still owned by that task's process. -/
theorem owner_identity_immutable :
    (∀ (ops : List OwnOp) (m : OwnTable) (i p : Nat),
        ownerOf m i = some p → ownerOf (applyOps m ops) i = some p)
    ∧ ownerOf chainScenario 7 = some 100 :=
  ⟨fun ops m i p h => ownerOf_applyOps ops m i p h, rfl⟩

/-- Witness for C5: the immutability conjunct applied at a concrete table
and operation list. -/
theorem owner_identity_immutable_witness :
    ownerOf (applyOps [(7, { owner := 100, refcount := 1 })]
      [OwnOp.addRef 7, OwnOp.dropRef 7]) 7 = some 100 :=
  owner_identity_immutable.1 [OwnOp.addRef 7, OwnOp.dropRef 7]
    [(7, { owner := 100, refcount := 1 })] 7 100 rfl

/-- Claim C6: a get with a finite timeout on an object whose data is
absent (and not confirmed permanently lost) when the timeout elapses
raises `TimeoutError` and only `TimeoutError`, leaves the caller's state —
in particular the local handle tracked in the store entry — untouched, and
the same get can be retried and succeeds once the data is present. -/
theorem get_timeout_retryable (s : Store) (i t : Nat) (e : StoreEntry)
    (hl : alookup s.entries i = some e) (hp : e.present = false)
    (hlost : e.lost = false) :
    (get s i (some t)).1 = GetResult.err CoreError.timeoutError
    ∧ (get s i (some t)).2 = s
    ∧ (get (markPresent s i) i (some t)).1 = GetResult.got := by
  refine ⟨?_, ?_, ?_⟩
  · simp [get, hl, hp, hlost]
  · simp [get, hl, hp, hlost]
  · have h2 : alookup (markPresent s i).entries i
        = some { e with present := true } := by
      simp [markPresent, alookup_aupdate, hl]
    simp [get, h2]

/-- Witness for C6: a concrete one-entry store whose object is absent but
not lost. -/
theorem get_timeout_retryable_witness :
    (get { entries := [(0, { size := 40, refcount := 1, present := false,
                             lost := false })],
           capacity := 100, fullMaxRetries := 2, nextId := 1 }
        0 (some 1)).1 = GetResult.err CoreError.timeoutError :=
  (get_timeout_retryable
    { entries := [(0, { size := 40, refcount := 1, present := false,
                        lost := false })],
      capacity := 100, fullMaxRetries := 2, nextId := 1 }
    0 1
    { size := 40, refcount := 1, present := false, lost := false }
    rfl rfl rfl).1

end Core

namespace CL

/-- Method `print` either raises or completes returning Python `None`. -/
theorem returnsNone_print (s : LoggerState) (msg levelStr : String) :
    returnsNone (print s msg levelStr) = true := by
  unfold print
  cases h : _print s (_format_msg msg) levelStr true with
  | ok s2 => simp [returnsNone]
  | error e => simp [returnsNone]

/-- Method `labeled_value` either raises or completes returning Python `None`. -/
theorem returnsNone_labeled_value (s : LoggerState) (key msg : String) :
    returnsNone (labeled_value s key msg) = true := by
  unfold labeled_value
  cases h : _print s (cfSkyBlue key ++ ": " ++ _format_msg (cfBold msg)) "INFO" true with
  | ok s2 => simp [returnsNone]
  | error e => simp [returnsNone]

/-- Claim C7: every rendering operation of the text reporter — `print`,
`error`, `warning`, `success`, `panic`, `labeled_value`, and the
`old_debug`/`old_info`/`old_warning`/`old_error`/`old_exception`
compatibility entry points — returns Python `None` whenever it completes,
so no return value from the reporter can feed back into core logic. -/
theorem reporter_returns_none (s : LoggerState) (key msg levelStr : String) :
    returnsNone (print s msg levelStr) = true
    ∧ returnsNone (error s msg) = true
    ∧ returnsNone (warning s msg) = true
    ∧ returnsNone (success s msg) = true
    ∧ returnsNone (panic s msg) = true
    ∧ returnsNone (labeled_value s key msg) = true
    ∧ returnsNone (old_debug s msg) = true
    ∧ returnsNone (old_info s msg) = true
    ∧ returnsNone (old_warning s msg) = true
    ∧ returnsNone (old_error s msg) = true
    ∧ returnsNone (old_exception s msg) = true :=
  ⟨returnsNone_print s msg levelStr,
   returnsNone_print s (cfRed msg) "ERR",
   returnsNone_print s (cfOrange msg) "WARN",
   returnsNone_print s (cfLimeGreen msg) "SUCC",
   returnsNone_print s (cfRed msg) "PANIC",
   returnsNone_labeled_value s key msg,
   rfl, rfl, rfl, rfl, rfl⟩

/-- Witness for C7: the reporter operations applied at the initial logger
state. -/
theorem reporter_returns_none_witness :
    returnsNone (print initLogger "hello" "INFO") = true
    ∧ returnsNone (old_debug initLogger "hello") = true :=
  ⟨(reporter_returns_none initLogger "label" "hello" "INFO").1,
   (reporter_returns_none initLogger "label" "hello" "INFO").2.2.2.2.2.2.1⟩

/-- Claim C9: `_print` raises `ValueError` exactly when the message
contains a newline character, and succeeds on every newline-free message,
so every emitted message occupies a single output line. -/
theorem print_newline_guard (s : LoggerState) (msg levelStr : String)
    (lf : Bool) :
    (_print s msg levelStr lf = Except.error (PyError.valueError noMsg)
      ↔ containsNewline msg = true)
    ∧ ((_print s msg levelStr lf).isOk = true
      ↔ containsNewline msg = false) := by
  rcases Bool.eq_false_or_eq_true (containsNewline msg) with hc | hc
  · have herr : _print s msg levelStr lf
        = Except.error (PyError.valueError noMsg) := by
      unfold _print
      rw [hc, if_pos rfl]
    rw [herr]
    constructor
    · exact ⟨fun _ => hc, fun _ => rfl⟩
    · constructor
      · intro h
        exact Bool.noConfusion h
      · intro h
        rw [hc] at h
        cases h
  · obtain ⟨s2, hs2⟩ : ∃ s2, _print s msg levelStr lf = Except.ok s2 := by
      unfold _print
      rw [hc, if_neg Bool.false_ne_true]
      split
      · exact ⟨s, rfl⟩
      · cases lf
        · exact ⟨_, rfl⟩
        · exact ⟨_, rfl⟩
    rw [hs2]
    constructor
    · constructor
      · intro h
        cases h
      · intro h
        rw [h] at hc
        cases hc
    · exact ⟨fun _ => hc, fun _ => rfl⟩

/-- Witness for C9: a message with a newline raises; a newline-free
message succeeds. -/
theorem print_newline_guard_witness :
    _print initLogger "two\nlines" "INFO" true
      = Except.error (PyError.valueError noMsg)
    ∧ (_print initLogger "one line" "INFO" true).isOk = true :=
  ⟨(print_newline_guard initLogger "two\nlines" "INFO" true).1.mpr (by decide),
   (print_newline_guard initLogger "one line" "INFO" true).2.mpr (by decide)⟩

/-- Claim C10: the context manager returned by `indented()` increments
`indent_level` by exactly 1 on entry and decrements it by exactly 1 on
exit; the exit runs also when the body raises, so every balanced
enter/exit pair restores `indent_level`, and neither entering nor exiting
modifies any other part of the logger state. -/
theorem indented_balanced :
    (∀ s : LoggerState,
        indentedEnter s = { s with indent_level := s.indent_level + 1 })
    ∧ (∀ s : LoggerState,
        indentedExit s = { s with indent_level := s.indent_level - 1 })
    ∧ (∀ s : LoggerState, indentedExit (indentedEnter s) = s)
    ∧ (∀ (s : LoggerState) (body : LoggerState → LoggerState × Option PyError),
        withIndented s body
          = (indentedExit (body (indentedEnter s)).1, (body (indentedEnter s)).2))
    ∧ (∀ s : LoggerState,
        (indentedEnter s).non_interactive = s.non_interactive
        ∧ (indentedEnter s).verbosity = s.verbosity
        ∧ (indentedEnter s).now = s.now
        ∧ (indentedEnter s).output = s.output
        ∧ (indentedExit s).non_interactive = s.non_interactive
        ∧ (indentedExit s).verbosity = s.verbosity
        ∧ (indentedExit s).now = s.now
        ∧ (indentedExit s).output = s.output) := by
  refine ⟨fun s => rfl, fun s => rfl, fun s => ?_, fun s body => rfl,
    fun s => ⟨rfl, rfl, rfl, rfl, rfl, rfl, rfl, rfl⟩⟩
  simp [indentedEnter, indentedExit]

/-- Witness for C10: a balanced enter/exit pair at the initial logger
state is the identity. -/
theorem indented_balanced_witness :
    indentedExit (indentedEnter initLogger) = initLogger :=
  indented_balanced.2.2.1 initLogger

end CL

namespace FW

/-- Claim C8: `get_auto_framework` implements the total case analysis over
the two installation flags — only torch installed returns `"torch"`, only
tf installed returns `"tf"`, and both or neither installed raises
`ValueError`. -/
theorem get_auto_framework_cases :
    get_auto_framework true false = Except.ok "torch"
    ∧ get_auto_framework false true = Except.ok "tf"
    ∧ get_auto_framework true true
      = Except.error (PyError.valueError bothInstalledMsg)
    ∧ get_auto_framework false false
      = Except.error (PyError.valueError neitherInstalledMsg) :=
  ⟨rfl, rfl, rfl, rfl⟩

end FW
